import Mathlib

set_option maxRecDepth 10000

/-!
Verification of the Incident-Response-Tool frontend core
(`src/static/js/main.js`): severity classification, the log-message
normalizer (`renderLogCard`), the ordered explanation and mitigation
rule engines, the alerting behaviour of `updateAnomalyList`, and the
scheduler interval clamp of `startSchedule`.  The JavaScript functions
are shallowly embedded as total Lean functions over `List Char` and
`Rat`; numeric comparisons on anomaly scores mirror the JS comparisons.
-/

namespace IRTool

/-! Character and list-of-char helpers mirroring the JS string operations. -/

def qc : Char := Char.ofNat 39

def isWs (c : Char) : Bool :=
  c == ' ' || c == '\t' || c == '\n' || c == '\r' || c == Char.ofNat 11 || c == Char.ofNat 12

def isDigitC (c : Char) : Bool :=
  48 ≤ c.toNat && c.toNat ≤ 57

def isUpperC (c : Char) : Bool :=
  65 ≤ c.toNat && c.toNat ≤ 90

def isLowerC (c : Char) : Bool :=
  97 ≤ c.toNat && c.toNat ≤ 122

def toLowerC (c : Char) : Char :=
  if isUpperC c then Char.ofNat (c.toNat + 32) else c

def dropWsL (l : List Char) : List Char := l.dropWhile isWs

def trimC (l : List Char) : List Char :=
  ((l.dropWhile isWs).reverse.dropWhile isWs).reverse

def isPrefixL : List Char → List Char → Bool
  | [], _ => true
  | _ :: _, [] => false
  | a :: as, b :: bs => a == b && isPrefixL as bs

def anyPos (p : List Char → Bool) : List Char → Bool
  | [] => p []
  | c :: r => p (c :: r) || anyPos p r

def containsSub (pat l : List Char) : Bool := anyPos (isPrefixL pat) l

def splitOnC (sep : Char) : List Char → List (List Char)
  | [] => [[]]
  | c :: rest =>
    let r := splitOnC sep rest
    if c == sep then [] :: r
    else
      match r with
      | [] => [[c]]
      | h :: t => (c :: h) :: t

def splitComma : List Char → List (List Char) := splitOnC ','

def digitRun : List Char → Nat
  | [] => 0
  | c :: r => if isDigitC c then digitRun r + 1 else 0

/-! The severity classifier of `updateLevelChart` (main.js lines 400-409):
a present score is High when above 0.8, Medium when above 0.5, otherwise
Low; an absent score counts as Pending. -/

inductive Severity where
  | High
  | Medium
  | Low
  | Pending
deriving DecidableEq, Repr

def classify : Option ℚ → Severity
  | none => Severity.Pending
  | some s => if (0.8 : ℚ) < s then Severity.High
      else if (0.5 : ℚ) < s then Severity.Medium
      else Severity.Low

/-! The scheduler start request of `startSchedule` (main.js lines 507-516):
an unparsable or zero interval defaults to 300 and anything below 30 is
clamped to 30 before the request is sent. -/

def numberOr300 (raw : Option ℚ) : ℚ :=
  match raw with
  | none => 300
  | some v => if v = 0 then 300 else v

def effectiveInterval (raw : Option ℚ) : ℚ :=
  if numberOr300 raw < 30 then 30 else numberOr300 raw

/-! Token tests used by the WebAccess branch of `renderLogCard`
(main.js lines 183-189).  Each mirrors one anchored JS regex applied to
a trimmed comma-separated token. -/

def ipv4Group (g : List Char) : Bool :=
  decide (1 ≤ g.length) && decide (g.length ≤ 3) && g.all isDigitC

def ipv4Tok (l : List Char) : Bool :=
  match splitOnC '.' l with
  | [a, b, c, d] => ipv4Group a && ipv4Group b && ipv4Group c && ipv4Group d
  | _ => false

def methodTok (l : List Char) : Bool :=
  let w := l.map toLowerC
  w == ("get").data || w == ("post").data || w == ("put").data ||
    w == ("delete").data || w == ("head").data

def statusTok : List Char → Bool
  | [a, b, c] => (49 ≤ a.toNat && a.toNat ≤ 53) && isDigitC b && isDigitC c
  | _ => false

def countryPat : List Char → Bool
  | [] => false
  | c :: rest => isUpperC c && decide (1 ≤ rest.length) && rest.all isLowerC

def chromeL : List Char := ("Chrome").data

def safariL : List Char := ("Safari").data

def countryQual (p : List Char) : Bool :=
  countryPat (trimC p) && decide (3 < p.length) &&
    !(containsSub chromeL p) && !(containsSub safariL p)

def webParts (m : List Char) : List (List Char) := splitComma m

def webIp (m : List Char) : Option (List Char) :=
  (webParts m).find? (fun p => ipv4Tok (trimC p))

def webMethod (m : List Char) : Option (List Char) :=
  (webParts m).find? (fun p => methodTok (trimC p))

def webStatus (m : List Char) : Option (List Char) :=
  (webParts m).find? (fun p => statusTok (trimC p))

def webCountry (m : List Char) : Option (List Char) :=
  (webParts m).find? countryQual

/-! Unanchored IPv4 search mirroring the JS regex match on the whole
message (main.js line 363): leftmost occurrence, greedy digit groups. -/

def matchDotGroup (l : List Char) : Option (List Char × List Char) :=
  match l with
  | c :: r =>
    if c == '.' then
      let n := digitRun r
      if 1 ≤ n && n ≤ 3 then some ('.' :: r.take n, r.drop n) else none
    else none
  | [] => none

def matchDotGroupLast (l : List Char) : Option (List Char × List Char) :=
  match l with
  | c :: r =>
    if c == '.' then
      let n := min (digitRun r) 3
      if 1 ≤ n then some ('.' :: r.take n, r.drop n) else none
    else none
  | [] => none

def matchIpv4At (l : List Char) : Option (List Char) :=
  let n := digitRun l
  if 1 ≤ n && n ≤ 3 then
    match matchDotGroup (l.drop n) with
    | some (g2, r2) =>
      match matchDotGroup r2 with
      | some (g3, r3) =>
        match matchDotGroupLast r3 with
        | some (g4, _) => some (l.take n ++ g2 ++ g3 ++ g4)
        | none => none
      | none => none
    | none => none
  else none

def firstIpv4 : List Char → Option (List Char)
  | [] => none
  | c :: r =>
    match matchIpv4At (c :: r) with
    | some m => some m
    | none => firstIpv4 r

/-! Deep-embedded pattern primitives covering exactly the regex shapes of
the EXPLANATIONS and MITIGATION_MATRIC tables (main.js lines 285-302).
All those regexes carry the i flag, so tests run on the lowercased
message.  A rule pattern is an alternation (list) of primitives. -/

inductive Prim where
  | sub : List Char → Prim
  | litWs : List Char → List Char → Prim
  | http404 : Prim
  | usbscan : Prim
deriving DecidableEq, Repr

def http404At (l : List Char) : Bool :=
  isPrefixL (("http/1.").data) l &&
    (match l.drop 7 with
     | d :: r =>
       isDigitC d &&
         (match r with
          | x :: r2 => x == '"' && isPrefixL (("404").data) (dropWsL r2)
          | [] => false)
     | [] => false)

def scanNoNewline (pat : List Char) : List Char → Bool
  | [] => isPrefixL pat []
  | c :: r => isPrefixL pat (c :: r) || (!(c == '\n' || c == '\r') && scanNoNewline pat r)

def usbscanAt (l : List Char) : Bool :=
  isPrefixL (("usb").data) l && scanNoNewline (("scan").data) (l.drop 3)

def primTest (p : Prim) (lm : List Char) : Bool :=
  match p with
  | Prim.sub s => anyPos (isPrefixL s) lm
  | Prim.litWs a b => anyPos (fun l => isPrefixL a l && isPrefixL b (dropWsL (l.drop a.length))) lm
  | Prim.http404 => anyPos http404At lm
  | Prim.usbscan => anyPos usbscanAt lm

def patTest (ps : List Prim) (raw : List Char) : Bool :=
  ps.any (fun p => primTest p (raw.map toLowerC))

/-! The EXPLANATIONS rule table (main.js lines 293-302), in declared
order, and the first-match engine of the explanation loop
(main.js lines 349-355). -/

structure ExpRule where
  pattern : List Prim
  text : String
deriving DecidableEq, Repr

def exp404 : ExpRule :=
  ⟨[Prim.litWs (("code").data) (("404").data),
    Prim.litWs (("status").data) (("404").data), Prim.http404],
   "🔍 Web Scanning: The visitor is looking for files that do not exist (e.g., trying to find admin pages)."⟩

def exp500 : ExpRule :=
  ⟨[Prim.litWs (("code").data) (("500").data),
    Prim.litWs (("status").data) (("500").data)],
   "Internal Server Error (Crash or Bug)."⟩

def expBrute : ExpRule :=
  ⟨[Prim.sub (("failed password").data), Prim.sub (("authentication failure").data),
    Prim.sub (("bad credentials").data)],
   "💡 Possible Brute Force Attempt: Someone is failing to login."⟩

def expSegv : ExpRule :=
  ⟨[Prim.sub (("segmentation fault").data), Prim.sub (("segfault").data)],
   "💥 Critical Error: A program crashed due to memory issues."⟩

def expConn : ExpRule :=
  ⟨[Prim.sub (("connection refused").data), Prim.sub (("connection timed out").data)],
   "Network Error: Server is blocking requests or is down."⟩

def expUsb : ExpRule :=
  ⟨[Prim.usbscan], "Hardware Event: USB Device scanning."⟩

def expAccount : ExpRule :=
  ⟨[Prim.sub (("user add").data), Prim.sub (("group add").data)],
   "⚠️ Account Change: A new user or group was created."⟩

def expSudo : ExpRule :=
  ⟨[Prim.sub (("sudo").data)],
   "Admin Action: Someone executed a Super-User command."⟩

def EXPLANATIONS : List ExpRule :=
  [exp404, exp500, expBrute, expSegv, expConn, expUsb, expAccount, expSudo]

def findExplanation (m : String) : Option String :=
  (EXPLANATIONS.find? (fun r => patTest r.pattern m.data)).map ExpRule.text

/-! The MITIGATION_MATRIC rule table (main.js lines 285-291), the
first-match mitigation loop and the IPv4 command-suffix logic
(main.js lines 357-379). -/

structure MitRule where
  pattern : List Prim
  action : String
  command : String
deriving DecidableEq, Repr

def mitBrute : MitRule :=
  ⟨[Prim.sub (("failed password").data), Prim.sub (("authentication failure").data),
    Prim.sub (("bad credentials").data)],
   "Block IP",
   "netsh advfirewall firewall add rule name=\"Block IP\" dir=in action=block remoteip="⟩

def mitScan : MitRule :=
  ⟨[Prim.litWs (("code").data) (("404").data),
    Prim.litWs (("status").data) (("404").data)],
   "Block Scanning IP",
   "netsh advfirewall firewall add rule name=\"Block Scanner\" dir=in action=block remoteip="⟩

def mitPriv : MitRule :=
  ⟨[Prim.sub (("user add").data), Prim.sub (("group add").data)],
   "Review Privileges", "netplwiz"⟩

def mitAudit : MitRule :=
  ⟨[Prim.sub (("sudo").data), Prim.sub (("admin").data)],
   "Audit Session", "query user"⟩

def mitSqli : MitRule :=
  ⟨[Prim.sub (("sql injection").data), Prim.sub (("union select").data),
    Prim.sub (("script>").data)],
   "Block Web Attack",
   "netsh advfirewall firewall add rule name=\"Block SQLi\" dir=in action=block remoteip="⟩

def MITIGATION_MATRIC : List MitRule :=
  [mitBrute, mitScan, mitPriv, mitAudit, mitSqli]

def findMitigation (m : String) : Option MitRule :=
  MITIGATION_MATRIC.find? (fun r => patTest r.pattern m.data)

def mitigationFor (m : String) : Option (String × String) :=
  match findMitigation m with
  | none => none
  | some r =>
    match firstIpv4 m.data with
    | some ip => some (r.action, r.command ++ String.mk ip)
    | none => some (r.action, r.command)

/-! Windows-event extraction of `renderLogCard` (main.js lines 220-273).
The JS capture regexes over dictionary-shaped messages are embedded as
leftmost-occurrence scanners; the static WIN_EVENT_DESCRIPTIONS table and
the description synthesis follow lines 245-251. -/

def keyEventId : List Char := [qc] ++ ("Event ID").data ++ [qc, ':']

def keySource : List Char := [qc] ++ ("Source").data ++ [qc, ':']

def keyMessage : List Char := [qc] ++ ("Message").data ++ [qc, ':']

def keyTaskCat : List Char := [qc] ++ ("Task Category").data ++ [qc, ':']

def eventIdLit : List Char := ("Event ID").data

def winMarker : List Char := [Char.ofNat 123, qc]

def matchKeyNumAt (key l : List Char) : Option (List Char) :=
  if isPrefixL key l then
    match dropWsL (l.drop key.length) with
    | q :: r2 =>
      if q == qc then
        let n := digitRun r2
        if 1 ≤ n then
          match r2.drop n with
          | q2 :: _ => if q2 == qc then some (r2.take n) else none
          | [] => none
        else none
      else none
    | [] => none
  else none

def matchKeyNum (key : List Char) : List Char → Option (List Char)
  | [] => none
  | c :: r =>
    match matchKeyNumAt key (c :: r) with
    | some d => some d
    | none => matchKeyNum key r

def takeToQuote : List Char → Option (List Char × List Char)
  | [] => none
  | c :: r =>
    if c == qc then some ([], r)
    else (takeToQuote r).map (fun pr => (c :: pr.1, pr.2))

def matchKeyStrAt (key l : List Char) : Option (List Char) :=
  if isPrefixL key l then
    match dropWsL (l.drop key.length) with
    | q :: r2 => if q == qc then (takeToQuote r2).map Prod.fst else none
    | [] => none
  else none

def matchKeyStr (key : List Char) : List Char → Option (List Char)
  | [] => none
  | c :: r =>
    match matchKeyStrAt key (c :: r) with
    | some t => some t
    | none => matchKeyStr key r

def WIN_EVENT_DESCRIPTIONS : List (String × String) :=
  [("4624", "Successful Logon"),
   ("4625", "Failed Logon (Invalid Credentials)"),
   ("4634", "Account Logged Off"),
   ("4648", "Logon using explicit credentials"),
   ("4672", "Special Privileges Assigned (Admin Login)"),
   ("4720", "New User Account Created"),
   ("4722", "User Account Enabled"),
   ("4723", "User Account Password Change Attempt"),
   ("4724", "User Account Password Reset Attempt"),
   ("4725", "User Account Disabled"),
   ("4726", "User Account Deleted"),
   ("4728", "User added to Security-enabled Global Group"),
   ("4732", "User added to Security-enabled Local Group")]

def lookupWinDesc (eid : String) : Option String :=
  (WIN_EVENT_DESCRIPTIONS.find? (fun p => p.1 == eid)).map Prod.snd

def bsRN : List Char := ['\\', 'r', '\\', 'n']

def bsT : List Char := ['\\', 't']

def bsQ : List Char := ['\\', qc]

def replaceAllF (pat rep : List Char) : Nat → List Char → List Char
  | 0, l => l
  | _ + 1, [] => []
  | fuel + 1, c :: r =>
    if isPrefixL pat (c :: r) && decide (0 < pat.length) then
      rep ++ replaceAllF pat rep fuel (r.drop (pat.length - 1))
    else
      c :: replaceAllF pat rep fuel r

def replaceAll (pat rep l : List Char) : List Char :=
  replaceAllF pat rep l.length l

def takeLine : List Char → List Char
  | [] => []
  | c :: r => if c == '\n' then [] else c :: takeLine r

def dots3 : List Char := ("...").data

def winEventPrefix : List Char := ("Windows Event ").data

def winEventId (m : List Char) : List Char :=
  match matchKeyNum keyEventId m with
  | some d => d
  | none =>
    match matchKeyNum keySource m with
    | some d => d
    | none => ("Unknown").data

def winTaskRaw (m : List Char) : List Char :=
  match matchKeyStr keyMessage m with
  | some t => t
  | none =>
    match matchKeyStr keyTaskCat m with
    | some t => t
    | none => []

def winRealText (m : List Char) : List Char :=
  replaceAll bsQ [qc] (replaceAll bsT (("    ").data) (replaceAll bsRN ['\n'] (winTaskRaw m)))

def winSummary (eid realText : List Char) : List Char :=
  match lookupWinDesc (String.mk eid) with
  | some d => d.data
  | none =>
    let s := (takeLine realText).take 80 ++ (if 80 < realText.length then dots3 else [])
    if s.length = 0 || decide ((trimC s).length < 5) then winEventPrefix ++ eid else s

/-! The normalizer `renderLogCard` (main.js lines 179-282) as a total
function into a structured view: WebAccess when the message contains a
comma and at least one of ip, method, status was extracted; WindowsEvent
when the trimmed message starts with a dictionary marker and mentions an
Event ID or Source key; Generic otherwise. -/

inductive StructuredView where
  | WebAccess (ip method status country : Option String)
  | WindowsEvent (eventId description rawText : String)
  | Generic
deriving DecidableEq, Repr

def extractWindows (m : List Char) : StructuredView :=
  StructuredView.WindowsEvent (String.mk (winEventId m))
    (String.mk (winSummary (winEventId m) (winRealText m)))
    (String.mk (winRealText m))

def webHit (m : List Char) : Bool :=
  m.contains ',' && ((webIp m).isSome || (webMethod m).isSome || (webStatus m).isSome)

def winShape (m : List Char) : Bool :=
  isPrefixL winMarker (trimC m) && (containsSub eventIdLit m || containsSub keySource m)

def renderLogCard (message : String) : StructuredView :=
  if webHit message.data then
    StructuredView.WebAccess ((webIp message.data).map String.mk)
      ((webMethod message.data).map String.mk)
      ((webStatus message.data).map String.mk)
      ((webCountry message.data).map String.mk)
  else if winShape message.data then
    extractWindows message.data
  else
    StructuredView.Generic

/-! The anomaly-list renderer `updateAnomalyList` (main.js lines 327-394)
and its alerting: one High Severity alert when the batch holds a critical
anomaly and alerts are enabled (lines 333-336 with `sendAlert`, lines
30-34), then the first 50 anomalies rendered in order (line 338).
`simulateContainment` (lines 305-325) alerts when a proposed containment
action is executed. -/

structure Anomaly where
  id : Nat
  message : String
  score : ℚ
deriving DecidableEq, Repr

def sendAlert (alertsEnabled : Bool) (title msg : String) : List (String × String) :=
  if alertsEnabled then [(title, msg)] else []

def updateAnomalyAlerts (alertsEnabled : Bool) (anoms : List Anomaly) : List (String × String) :=
  let criticals := anoms.filter (fun a => decide ((0.8 : ℚ) < a.score))
  if 0 < criticals.length then
    sendAlert alertsEnabled ("High Severity Detected")
      ("Found " ++ toString criticals.length ++ " critical anomalies in the latest analysis.")
  else []

def simulateContainmentAlerts (alertsEnabled : Bool) (action : String) : List (String × String) :=
  sendAlert alertsEnabled ("Containment Action Success") (("Successfully executed: ") ++ action)

def sevLabel (s : ℚ) : String :=
  if (0.8 : ℚ) < s then "HIGH" else if (0.5 : ℚ) < s then "MEDIUM" else "Low"

structure RenderedItem where
  sev : String
  card : StructuredView
  insight : Option String
  response : Option (String × String)
deriving DecidableEq, Repr

def renderItem (a : Anomaly) : RenderedItem :=
  ⟨sevLabel a.score, renderLogCard a.message, findExplanation a.message, mitigationFor a.message⟩

def updateAnomalyItems (anoms : List Anomaly) : List RenderedItem :=
  (anoms.take 50).map renderItem

/-! Concrete messages used by the claims and witnesses.  The quote and
brace characters of the dictionary-shaped Windows messages are built
explicitly. -/

def qs : String := String.mk [qc]

def c3msg : String :=
  "\x7b" ++ qs ++ "Event ID" ++ qs ++ ": " ++ qs ++ "4625" ++ qs ++ ", " ++ qs ++
    "Message" ++ qs ++ ": " ++ qs ++ "bad login" ++ qs ++ "\x7d"

def c4msg : String :=
  "\x7b" ++ qs ++ "Event ID" ++ qs ++ ": " ++ qs ++ "9999" ++ qs ++ ", " ++ qs ++
    "Message" ++ qs ++ ": " ++ qs ++ "hi\\r\\n" ++ String.mk (List.replicate 90 'x') ++ qs ++ "\x7d"

def c4real : String := "hi\n" ++ String.mk (List.replicate 90 'x')

def c9msg : String := "1.2.3.4, Usa"

def c5msg : String := "sudo user add"

def c6msg : String := "user add from 10.0.0.5"

def c2msg : String := "hello world"

def c7msg : String := "sudo rm -rf tmp"

def c7anoms : List Anomaly := [⟨1, c7msg, 3 / 10⟩]

def c7wAnoms : List Anomaly := [⟨2, "x", (9 : ℚ) / 10⟩]

def c10low : Anomaly := ⟨1, "a", 0⟩

def c10high : Anomaly := ⟨2, "b", 1⟩

def c10list : List Anomaly := List.replicate 50 c10low ++ [c10high]

/-! Helper lemmas shared by several claim proofs. -/

theorem find_first {α : Type} (p : α → Bool) (l : List α) (a : α) (h : l.find? p = some a) :
    ∃ i, ∃ hi : i < l.length, l.get ⟨i, hi⟩ = a ∧ p a = true ∧
      ∀ j, ∀ hj : j < l.length, j < i → p (l.get ⟨j, hj⟩) = false := by
  induction l with
  | nil => simp at h
  | cons x xs ih =>
    cases hx : p x with
    | true =>
      rw [List.find?_cons_of_pos _ hx] at h
      have hxa : x = a := by simpa using h
      subst hxa
      exact ⟨0, Nat.succ_pos _, rfl, hx, fun j hj hj0 => absurd hj0 (Nat.not_lt_zero j)⟩
    | false =>
      rw [List.find?_cons_of_neg _ (by simp [hx])] at h
      obtain ⟨i, hi, hget, hpa, hfirst⟩ := ih h
      refine ⟨i + 1, Nat.succ_lt_succ hi, hget, hpa, ?_⟩
      intro j hj hlt
      cases j with
      | zero => simpa using hx
      | succ j' => exact hfirst j' (Nat.lt_of_succ_lt_succ hj) (Nat.lt_of_succ_lt_succ hlt)

theorem filter_pos_iff {α : Type} (p : α → Bool) (l : List α) :
    0 < (l.filter p).length ↔ ∃ a ∈ l, p a = true := by
  rw [List.length_pos]
  constructor
  · intro h
    obtain ⟨a, ha⟩ := List.exists_mem_of_ne_nil _ h
    rw [List.mem_filter] at ha
    exact ⟨a, ha.1, ha.2⟩
  · rintro ⟨a, ha, hpa⟩
    exact List.ne_nil_of_mem (List.mem_filter.mpr ⟨ha, hpa⟩)

theorem alerts_ne_nil_iff (enabled : Bool) (anoms : List Anomaly) :
    updateAnomalyAlerts enabled anoms ≠ [] ↔
      (enabled = true ∧ ∃ a ∈ anoms, (0.8 : ℚ) < a.score) := by
  unfold updateAnomalyAlerts sendAlert
  by_cases hf : 0 < (anoms.filter (fun a => decide ((0.8 : ℚ) < a.score))).length
  · rw [if_pos hf]
    cases enabled with
    | false => simp
    | true =>
      constructor
      · intro _
        exact ⟨rfl, by simpa using (filter_pos_iff _ _).mp hf⟩
      · intro _
        simp
  · rw [if_neg hf]
    constructor
    · intro h
      exact absurd rfl h
    · rintro ⟨he, a, ha, hs⟩
      exact absurd ((filter_pos_iff _ _).mpr ⟨a, ha, by simpa using hs⟩) hf

/-! Claim theorems. -/

/-- Claim C1: for every anomaly score the severity is High iff the score
exceeds 0.8, Medium iff it lies in (0.5, 0.8], Low iff it is at most 0.5,
and Pending iff the score is absent; in particular a score of exactly 0.8
classifies as Medium, a score of exactly 0.5 as Low, and the classifier is
a total function. -/
theorem claim1_severity_bands (s : Option ℚ) :
    (classify s = Severity.High ↔ ∃ v, s = some v ∧ (0.8 : ℚ) < v)
    ∧ (classify s = Severity.Medium ↔ ∃ v, s = some v ∧ (0.5 : ℚ) < v ∧ v ≤ (0.8 : ℚ))
    ∧ (classify s = Severity.Low ↔ ∃ v, s = some v ∧ v ≤ (0.5 : ℚ))
    ∧ (classify s = Severity.Pending ↔ s = none)
    ∧ classify (some (0.8 : ℚ)) = Severity.Medium
    ∧ classify (some (0.5 : ℚ)) = Severity.Low := by
  have hM : classify (some (0.8 : ℚ)) = Severity.Medium := by norm_num [classify]
  have hL : classify (some (0.5 : ℚ)) = Severity.Low := by norm_num [classify]
  cases s with
  | none =>
    refine ⟨?_, ?_, ?_, ?_, hM, hL⟩ <;> simp [classify]
  | some v =>
    by_cases h1 : (0.8 : ℚ) < v
    · have hc : classify (some v) = Severity.High := by simp [classify, h1]
      refine ⟨?_, ?_, ?_, ?_, hM, hL⟩
      · rw [hc]
        exact ⟨fun _ => ⟨v, rfl, h1⟩, fun _ => rfl⟩
      · rw [hc]
        constructor
        · intro h
          simp at h
        · rintro ⟨w, hw, h2, h3⟩
          injection hw with hw
          subst hw
          linarith
      · rw [hc]
        constructor
        · intro h
          simp at h
        · rintro ⟨w, hw, h2⟩
          injection hw with hw
          subst hw
          linarith
      · rw [hc]
        exact ⟨fun h => by simp at h, fun h => by simp at h⟩
    · by_cases h2 : (0.5 : ℚ) < v
      · have hc : classify (some v) = Severity.Medium := by simp [classify, h1, h2]
        refine ⟨?_, ?_, ?_, ?_, hM, hL⟩
        · rw [hc]
          constructor
          · intro h
            simp at h
          · rintro ⟨w, hw, h3⟩
            injection hw with hw
            subst hw
            exact absurd h3 h1
        · rw [hc]
          exact ⟨fun _ => ⟨v, rfl, h2, not_lt.mp h1⟩, fun _ => rfl⟩
        · rw [hc]
          constructor
          · intro h
            simp at h
          · rintro ⟨w, hw, h3⟩
            injection hw with hw
            subst hw
            linarith
        · rw [hc]
          exact ⟨fun h => by simp at h, fun h => by simp at h⟩
      · have hc : classify (some v) = Severity.Low := by simp [classify, h1, h2]
        refine ⟨?_, ?_, ?_, ?_, hM, hL⟩
        · rw [hc]
          constructor
          · intro h
            simp at h
          · rintro ⟨w, hw, h3⟩
            injection hw with hw
            subst hw
            exact absurd h3 h1
        · rw [hc]
          constructor
          · intro h
            simp at h
          · rintro ⟨w, hw, h3, h4⟩
            injection hw with hw
            subst hw
            exact absurd h3 h2
        · rw [hc]
          exact ⟨fun _ => ⟨v, rfl, not_lt.mp h2⟩, fun _ => rfl⟩
        · rw [hc]
          exact ⟨fun h => by simp at h, fun h => by simp at h⟩

/-- Witness for C1: a concrete score of 9/10 is classified High through the
band characterization. -/
theorem claim1_witness : classify (some ((9 : ℚ) / 10)) = Severity.High :=
  (claim1_severity_bands (some ((9 : ℚ) / 10))).1.mpr ⟨(9 : ℚ) / 10, rfl, by norm_num⟩

/-- Claim C3: normalizing the dictionary-shaped message with Event ID 4625
and Message bad login yields the WindowsEvent view with eventId 4625 and
the static well-known description, although the message contains a comma
and is therefore first run through the WebAccess extraction. -/
theorem claim3_win4625 :
    renderLogCard c3msg =
      StructuredView.WindowsEvent ("4625") ("Failed Logon (Invalid Credentials)") ("bad login")
    ∧ c3msg.data.contains ',' = true
    ∧ webIp c3msg.data = none ∧ webMethod c3msg.data = none ∧ webStatus c3msg.data = none :=
  ⟨by decide, by decide, by decide, by decide, by decide⟩

/-- Claim C8: a scheduler start request below 30 seconds is clamped to 30
rather than rejected, so the interval sent is never below 30, and a
requested interval of 10 yields an effective interval of 30. -/
theorem claim8_interval_clamp :
    (∀ raw : Option ℚ, 30 ≤ effectiveInterval raw) ∧ effectiveInterval (some 10) = 30 := by
  constructor
  · intro raw
    unfold effectiveInterval
    split_ifs with h
    · exact le_refl 30
    · exact le_of_not_lt h
  · norm_num [effectiveInterval, numberOr300]

/-- Claim C2 counterexample: the comma-containing message of C3 has none
of ip, method or status extracted, yet the normalizer does not degrade it
to the Generic view (it produces a WindowsEvent view), refuting the claim
that every comma-containing message without those fields degrades to
Generic. -/
theorem claim2_counterexample :
    c3msg.data.contains ',' = true
    ∧ webIp c3msg.data = none ∧ webMethod c3msg.data = none ∧ webStatus c3msg.data = none
    ∧ renderLogCard c3msg ≠ StructuredView.Generic :=
  ⟨by decide, by decide, by decide, by decide, by decide⟩

/-- Claim C2 (amended): the normalizer is a total function that never
throws; a comma-containing message in which none of ip, method, status is
found falls through to the Windows-event check, and any message that
triggers neither the WebAccess nor the WindowsEvent shape degrades to the
Generic view. -/
theorem claim2_generic_fallback (m : String) :
    (webHit m.data = false → winShape m.data = false → renderLogCard m = StructuredView.Generic)
    ∧ (renderLogCard m = StructuredView.Generic
        ∨ (∃ ip me st co, renderLogCard m = StructuredView.WebAccess ip me st co)
        ∨ (∃ a b c, renderLogCard m = StructuredView.WindowsEvent a b c)) := by
  constructor
  · intro h1 h2
    simp [renderLogCard, h1, h2]
  · cases hr : renderLogCard m with
    | Generic => exact Or.inl rfl
    | WebAccess a b c d => exact Or.inr (Or.inl ⟨a, b, c, d, rfl⟩)
    | WindowsEvent a b c => exact Or.inr (Or.inr ⟨a, b, c, rfl⟩)

/-- Witness for the amended C2: a plain message with no comma and no
dictionary marker degrades to Generic. -/
theorem claim2_witness : renderLogCard c2msg = StructuredView.Generic :=
  (claim2_generic_fallback c2msg).1 (by decide) (by decide)

/-- Claim C5: the explanation and mitigation engines scan their fixed rule
lists in declared order and return the payload of the first rule whose
pattern matches the message, returning nothing when no rule matches. -/
theorem claim5_first_match (m : String) :
    (∀ t, findExplanation m = some t →
      ∃ i, ∃ hi : i < EXPLANATIONS.length,
        t = (EXPLANATIONS.get ⟨i, hi⟩).text
        ∧ patTest (EXPLANATIONS.get ⟨i, hi⟩).pattern m.data = true
        ∧ ∀ j, ∀ hj : j < EXPLANATIONS.length, j < i →
            patTest (EXPLANATIONS.get ⟨j, hj⟩).pattern m.data = false)
    ∧ (findExplanation m = none ↔ ∀ r ∈ EXPLANATIONS, patTest r.pattern m.data = false)
    ∧ (∀ r, findMitigation m = some r →
      ∃ i, ∃ hi : i < MITIGATION_MATRIC.length,
        r = MITIGATION_MATRIC.get ⟨i, hi⟩
        ∧ patTest r.pattern m.data = true
        ∧ ∀ j, ∀ hj : j < MITIGATION_MATRIC.length, j < i →
            patTest (MITIGATION_MATRIC.get ⟨j, hj⟩).pattern m.data = false)
    ∧ (findMitigation m = none ↔ ∀ r ∈ MITIGATION_MATRIC, patTest r.pattern m.data = false) := by
  refine ⟨?_, ?_, ?_, ?_⟩
  · intro t ht
    unfold findExplanation at ht
    obtain ⟨r, hfind, htext⟩ := Option.map_eq_some'.mp ht
    obtain ⟨i, hi, hget, hp, hfirst⟩ := find_first _ _ _ hfind
    refine ⟨i, hi, ?_, ?_, hfirst⟩
    · rw [hget, htext]
    · rw [hget]
      exact hp
  · unfold findExplanation
    rw [Option.map_eq_none']
    rw [List.find?_eq_none]
    simp
  · intro r hr
    unfold findMitigation at hr
    obtain ⟨i, hi, hget, hp, hfirst⟩ := find_first _ _ _ hr
    exact ⟨i, hi, hget.symm, hp, hfirst⟩
  · unfold findMitigation
    rw [List.find?_eq_none]
    simp

/-- Witness for C5: the message sudo user add matches both the account
rule and the sudo rule of each engine, and both engines return the earlier
matching rule. -/
theorem claim5_witness :
    (∃ i, ∃ hi : i < EXPLANATIONS.length,
      expAccount.text = (EXPLANATIONS.get ⟨i, hi⟩).text
      ∧ patTest (EXPLANATIONS.get ⟨i, hi⟩).pattern c5msg.data = true
      ∧ ∀ j, ∀ hj : j < EXPLANATIONS.length, j < i →
          patTest (EXPLANATIONS.get ⟨j, hj⟩).pattern c5msg.data = false)
    ∧ (∃ i, ∃ hi : i < MITIGATION_MATRIC.length,
      mitPriv = MITIGATION_MATRIC.get ⟨i, hi⟩
      ∧ patTest mitPriv.pattern c5msg.data = true
      ∧ ∀ j, ∀ hj : j < MITIGATION_MATRIC.length, j < i →
          patTest (MITIGATION_MATRIC.get ⟨j, hj⟩).pattern c5msg.data = false) :=
  ⟨(claim5_first_match c5msg).1 expAccount.text (by decide),
   (claim5_first_match c5msg).2.2.1 mitPriv (by decide)⟩

/-- Claim C6: whenever a mitigation rule matches, the proposed command is
the matched rule template with the first IPv4 occurrence of the message
appended verbatim when one exists, for every rule uniformly, and the
unchanged template when the message holds no IPv4 address. -/
theorem claim6_ip_suffix (m : String) (r : MitRule) (h : findMitigation m = some r) :
    (∀ ip, firstIpv4 m.data = some ip →
      mitigationFor m = some (r.action, r.command ++ String.mk ip))
    ∧ (firstIpv4 m.data = none → mitigationFor m = some (r.action, r.command)) := by
  constructor
  · intro ip hip
    simp [mitigationFor, h, hip]
  · intro hip
    simp [mitigationFor, h, hip]

/-- Witness for C6: the message user add from 10.0.0.5 matches the
privilege-review rule, whose template netplwiz is not IP-parameterized,
and the address is still appended. -/
theorem claim6_witness :
    findMitigation c6msg = some mitPriv
    ∧ mitigationFor c6msg = some (mitPriv.action, mitPriv.command ++ String.mk (("10.0.0.5").data)) :=
  ⟨by decide, (claim6_ip_suffix c6msg mitPriv (by decide)).1 (("10.0.0.5").data) (by decide)⟩

/-- Claim C7 counterexample: a batch holding one low-score anomaly whose
message matches a mitigation rule (a mitigation is proposed for it), yet
updateAnomalyList sends no alert even with alerts enabled — the sink is
not invoked at mitigation-proposal time. -/
theorem claim7_counterexample :
    findMitigation c7msg = some mitAudit
    ∧ c7anoms.map Anomaly.message = [c7msg]
    ∧ updateAnomalyAlerts true c7anoms = [] := by
  refine ⟨by decide, by decide, ?_⟩
  norm_num [updateAnomalyAlerts, sendAlert, List.filter, c7anoms]

/-- Claim C7 (amended): updateAnomalyList sends a single High Severity
Detected alert iff alerts are enabled and the analyzed batch contains at
least one anomaly with score above 0.8, and the notification sink is
invoked when a proposed containment action is executed
(simulateContainment), not at the moment a mitigation is proposed. -/
theorem claim7_alerting (enabled : Bool) (anoms : List Anomaly) (action : String) :
    (updateAnomalyAlerts enabled anoms ≠ [] ↔
      (enabled = true ∧ ∃ a ∈ anoms, (0.8 : ℚ) < a.score))
    ∧ (∀ t msg, (t, msg) ∈ updateAnomalyAlerts enabled anoms → t = "High Severity Detected")
    ∧ (updateAnomalyAlerts enabled anoms).length ≤ 1
    ∧ (simulateContainmentAlerts enabled action ≠ [] ↔ enabled = true) := by
  refine ⟨alerts_ne_nil_iff enabled anoms, ?_, ?_, ?_⟩
  · intro t msg h
    unfold updateAnomalyAlerts sendAlert at h
    by_cases h1 : 0 < (anoms.filter (fun a => decide ((0.8 : ℚ) < a.score))).length
    · rw [if_pos h1] at h
      cases enabled with
      | false => simp at h
      | true =>
        simp at h
        exact h.1
    · rw [if_neg h1] at h
      simp at h
  · unfold updateAnomalyAlerts sendAlert
    by_cases h1 : 0 < (anoms.filter (fun a => decide ((0.8 : ℚ) < a.score))).length
    · rw [if_pos h1]
      cases enabled <;> simp
    · rw [if_neg h1]
      simp
  · unfold simulateContainmentAlerts sendAlert
    cases enabled <;> simp

/-- Witness for the amended C7: with alerts enabled, a batch with a
critical anomaly triggers the alert, and an executed containment action
triggers its notification. -/
theorem claim7_witness :
    updateAnomalyAlerts true c7wAnoms ≠ []
    ∧ simulateContainmentAlerts true ("Block IP") ≠ [] :=
  ⟨(claim7_alerting true c7wAnoms ("Block IP")).1.mpr
      ⟨rfl, ⟨2, "x", (9 : ℚ) / 10⟩, by simp [c7wAnoms], by norm_num⟩,
   (claim7_alerting true c7wAnoms ("Block IP")).2.2.2.mpr rfl⟩

/-- Claim C9 counterexample: in the WebAccess message 1.2.3.4, Usa the
whitespace-padded token whose trimmed matched text Usa has only 3
characters is still selected as the country, refuting the assertion that
tokens with a trimmed matched text of 3 characters or shorter are
excluded. -/
theorem claim9_counterexample :
    renderLogCard c9msg =
      StructuredView.WebAccess (some ("1.2.3.4")) none none (some (" Usa"))
    ∧ (trimC ((" Usa").data)).length = 3 :=
  ⟨by decide, by decide⟩

/-- Claim C9 (amended): the country shown for a WebAccess message is the
first comma-separated token whose trimmed text matches the capitalized
pattern, whose untrimmed length exceeds 3, and which contains neither
Chrome nor Safari; the length test applies to the untrimmed token, so an
unpadded token of 3 or fewer characters is excluded while a padded token
with a 3-character trimmed match can qualify. -/
theorem claim9_country_heuristic :
    (∀ (m : String) ip me st co, renderLogCard m = StructuredView.WebAccess ip me st co →
      co = (webCountry m.data).map String.mk)
    ∧ (∀ (m : List Char) (c : List Char), webCountry m = some c →
      ∃ i, ∃ hi : i < (splitComma m).length,
        (splitComma m).get ⟨i, hi⟩ = c ∧ countryQual c = true
        ∧ ∀ j, ∀ hj : j < (splitComma m).length, j < i →
            countryQual ((splitComma m).get ⟨j, hj⟩) = false)
    ∧ (∀ p, countryQual p = true ↔
        (countryPat (trimC p) = true ∧ 3 < p.length
          ∧ containsSub chromeL p = false ∧ containsSub safariL p = false))
    ∧ (∀ p, p.length ≤ 3 → countryQual p = false) := by
  refine ⟨?_, ?_, ?_, ?_⟩
  · intro m ip me st co h
    unfold renderLogCard at h
    split at h
    · injection h with h1 h2 h3 h4
      exact h4.symm
    · split at h
      · simp [extractWindows] at h
      · simp at h
  · intro m c hc
    unfold webCountry webParts at hc
    exact find_first _ _ _ hc
  · intro p
    unfold countryQual
    simp only [Bool.and_eq_true, decide_eq_true_eq, Bool.not_eq_true']
    tauto
  · intro p hp
    unfold countryQual
    have hd : decide (3 < p.length) = false := decide_eq_false (by omega)
    simp [hd]

/-- Witness for the amended C9: the padded token of the counterexample
message is returned as the country through the characterization, and the
unpadded 3-character token Usa is rejected by the length test. -/
theorem claim9_witness :
    some (" Usa") = (webCountry c9msg.data).map String.mk
    ∧ countryQual (("Usa").data) = false :=
  ⟨claim9_country_heuristic.1 c9msg (some ("1.2.3.4")) none none (some (" Usa")) (by decide),
   claim9_country_heuristic.2.2.2 (("Usa").data) (by decide)⟩

/-- Claim C10: updateAnomalyList renders exactly min(length, 50) items,
the first 50 anomalies in input order, while the high-severity alert
check counts the whole list including anomalies beyond the 50th. -/
theorem claim10_first_fifty (anoms : List Anomaly) :
    (updateAnomalyItems anoms).length = min anoms.length 50
    ∧ (∀ i, i < 50 → (updateAnomalyItems anoms).get? i = (anoms.get? i).map renderItem)
    ∧ (updateAnomalyAlerts true anoms ≠ [] ↔ ∃ a ∈ anoms, (0.8 : ℚ) < a.score) := by
  refine ⟨?_, ?_, ?_⟩
  · simp [updateAnomalyItems, Nat.min_comm]
  · intro i hi
    unfold updateAnomalyItems
    rw [List.get?_map, List.get?_take hi]
  · simpa using alerts_ne_nil_iff true anoms

/-- Witness for C10: a 51-element batch whose only critical anomaly is the
51st renders 50 items, keeps the first item in place, and still raises the
alert from the element beyond the display cut. -/
theorem claim10_witness :
    (updateAnomalyItems c10list).length = min c10list.length 50
    ∧ (updateAnomalyItems c10list).get? 0 = (c10list.get? 0).map renderItem
    ∧ updateAnomalyAlerts true c10list ≠ [] :=
  ⟨(claim10_first_fifty c10list).1,
   (claim10_first_fifty c10list).2.1 0 (by norm_num),
   (claim10_first_fifty c10list).2.2.mpr ⟨c10high, by simp [c10list], by norm_num [c10high]⟩⟩

/-- Claim C4 counterexample: for the Windows-shaped message with unknown
Event ID 9999 and a Message whose first line hi is only 2 characters (not
truncated) but whose full text is 93 characters, the rendered description
is hi with the ellipsis appended — the ellipsis does not track first-line
truncation, and the below-5 fallback to Windows Event 9999 predicted by
the claim for the bare first line does not happen either. -/
theorem claim4_counterexample :
    renderLogCard c4msg = StructuredView.WindowsEvent ("9999") ("hi...") c4real
    ∧ takeLine c4real.data = ("hi").data
    ∧ ("hi").data.length ≤ 80
    ∧ 80 < c4real.data.length
    ∧ ("hi...") ≠ ("hi")
    ∧ ("hi...") ≠ ("Windows Event 9999")
    ∧ lookupWinDesc ("9999") = none :=
  ⟨by decide, by decide, by decide, by decide, by decide, by decide, by decide⟩

/-- Claim C4 (amended): for every Windows-shaped message whose eventId is
absent from the static description table, the description equals the first
line of rawText truncated to 80 characters with the ellipsis marker
appended if and only if the entire rawText is longer than 80 characters,
except that an empty or trimmed-below-5 synthesized description is
replaced by Windows Event followed by the eventId. -/
theorem claim4_synth_description (m : String) (eid desc rt : String)
    (h : renderLogCard m = StructuredView.WindowsEvent eid desc rt)
    (hl : lookupWinDesc eid = none) :
    desc.data =
      (if ((takeLine rt.data).take 80 ++ (if 80 < rt.data.length then dots3 else [])).length = 0
          || decide ((trimC ((takeLine rt.data).take 80 ++
              (if 80 < rt.data.length then dots3 else []))).length < 5)
        then winEventPrefix ++ eid.data
        else (takeLine rt.data).take 80 ++ (if 80 < rt.data.length then dots3 else [])) := by
  unfold renderLogCard at h
  split at h
  · simp at h
  · split at h
    · unfold extractWindows at h
      injection h with h1 h2 h3
      subst h1
      subst h2
      subst h3
      show winSummary (winEventId m.data) (winRealText m.data) = _
      unfold winSummary
      rw [hl]
    · simp at h

/-- Witness for the amended C4: applying the synthesized-description
characterization to the counterexample message yields its hi... rendering. -/
theorem claim4_witness :
    ("hi...").data =
      (if ((takeLine c4real.data).take 80 ++ (if 80 < c4real.data.length then dots3 else [])).length = 0
          || decide ((trimC ((takeLine c4real.data).take 80 ++
              (if 80 < c4real.data.length then dots3 else []))).length < 5)
        then winEventPrefix ++ ("9999").data
        else (takeLine c4real.data).take 80 ++ (if 80 < c4real.data.length then dots3 else [])) :=
  claim4_synth_description c4msg ("9999") ("hi...") c4real (by decide) (by decide)

end IRTool
